import Mathlib

/-!
Verification of the Iceberg ingestion/normalization/scoring pipeline.

This file gives a shallow embedding of the parts of the repository that the
claims are about, together with theorems settling those claims:

* `src/src/scoring.py` — the scoring engine (demand/supply/opportunity
  scores and the gold-zone classification);
* `src/src/scrapers/reddit_scraper.py` and
  `src/src/scrapers/appstore_scraper.py` — the `fetch_with_retry` loop;
* `src/src/extractor.py` — the LLM extraction with fallback model and
  sentinel result;
* `src/src/competitive.py` — competitor search, enrichment and the file
  cache of the rating-trend/stats lookups;
* `analysis.py` — the title-based deduplication of `search_ideas`.

Modelling conventions: Python floats are modelled as real numbers; numeric
fields carried in JSON-like records are modelled as rationals (exact decimal
inputs) and cast to `ℝ` at the point of use.  Timestamps (`datetime`
values) are integers counting epoch seconds, and the wall clock read by
`datetime.now()` is passed as an explicit `now : ℤ` argument; Python's
`timedelta.days` is floor division of the elapsed seconds by 86400.
External effects (HTTP calls, the LLM endpoint, the store
scrapers, `json.loads`) are passed in as oracle functions, and functions
that perform external calls additionally return how many such calls they
made, so that retry/caching claims can be stated.
-/

namespace Iceberg

/-- Python's `round(x, 1)` on floats, modelled on `ℝ`.  Mathlib's `round`
rounds half up while Python rounds half to even; the two agree at every
non-tie, and no claim below is evaluated at a tie. -/
noncomputable def round1 (x : ℝ) : ℝ := ((round (x * 10) : ℤ) : ℝ) / 10

/-- The same one-decimal rounding on `ℚ`, used where the source rounds a
rational quantity (`competitive.py` line 249). -/
def round1q (x : ℚ) : ℚ := ((⌊x * 10 + 1 / 2⌋ : ℤ) : ℚ) / 10

/-- Structure `Opportunity` — the structured extraction result
(`src/src/extractor.py`; read by `src/src/scoring.py` via `dict.get` with
`False`/`[]` defaults, so a missing `"opportunity"` key behaves exactly
like this record with all fields at their defaults). -/
structure Opportunity where
  title : String := ""
  pain_summary : String := ""
  unmet_need : Bool := false
  solo_doable : Bool := false
  monetizable : Bool := false
  tags : List String := []
deriving Repr, DecidableEq

/-- The `"competitive_data"` sub-dict as read by `score_post`
(`scoring.py` lines 174-176): only the two keys it looks up, each
`Option`al to model a missing key. -/
structure CompetitiveData where
  app_count : Option ℤ := none
  avg_rating : Option ℚ := none
deriving Repr, DecidableEq

/-- The post dict as consumed by `score_post` (`scoring.py` lines 151-207)
and `enrich_post_with_competitive_data` (`competitive.py` lines 257-295):
the fields those functions read, with `Option` for keys whose absence the
source handles via `dict.get` defaults that are not plain constants. -/
structure Post where
  title : String := ""
  score : ℤ := 0
  created_at : Option ℤ := none
  comments_count : ℕ := 0
  opportunity : Opportunity := {}
  competitive_data : Option CompetitiveData := none
deriving Repr, DecidableEq

/-- Seconds per day, for `timedelta` arithmetic. -/
def SECONDS_PER_DAY : ℤ := 86400

/-! Scoring engine (`src/src/scoring.py`) -/

/-- Constants from `ScoringEngine.__init__` (lines 24-28): the gold-zone thresholds. -/
def gold_zone_min_opportunity : ℝ := 70

def gold_zone_min_demand : ℝ := 50

def gold_zone_max_supply : ℝ := 30

/-- Source `calculate_demand_score` (lines 30-48):
`round(log10(post_score+1)*10 + sentiment*10 + velocity*20, 1)`. -/
noncomputable def calculate_demand_score (post_score : ℤ) (sentiment velocity : ℝ) : ℝ :=
  round1 (Real.logb 10 ((post_score : ℝ) + 1) * 10 + sentiment * 10 + velocity * 20)

/-- Source `calculate_supply_score` (lines 50-66): `round(app_count*5 + avg_rating*2, 1)`. -/
noncomputable def calculate_supply_score (app_count : ℤ) (avg_rating : ℝ) : ℝ :=
  round1 ((app_count : ℝ) * 5 + avg_rating * 2)

/-- Source `calculate_opportunity_score` (lines 68-81): `round(demand - supply, 1)`. -/
noncomputable def calculate_opportunity_score (demand_score supply_score : ℝ) : ℝ :=
  round1 (demand_score - supply_score)

/-- Source `is_gold_zone` (lines 83-101). -/
def is_gold_zone (demand_score supply_score opportunity_score : ℝ) : Prop :=
  opportunity_score ≥ gold_zone_min_opportunity ∧
  demand_score ≥ gold_zone_min_demand ∧
  supply_score ≤ gold_zone_max_supply

/-- Source `extract_sentiment_from_opportunity` (lines 103-125): base `0.5`,
`+0.3` if `unmet_need`, `+0.2` if `monetizable`, capped at `1.0`. -/
noncomputable def extract_sentiment_from_opportunity (opportunity : Opportunity) : ℝ :=
  min 1.0 (0.5 + (if opportunity.unmet_need then 0.3 else 0)
    + (if opportunity.monetizable then 0.2 else 0))

/-- Age in days, `(datetime.now() - created_at).days` (line 139): `timedelta.days`
floors toward minus infinity, hence `Int.fdiv`. -/
def age_days (now created_at : ℤ) : ℤ := (now - created_at).fdiv SECONDS_PER_DAY

/-- Source `calculate_velocity` (lines 127-149).  The source reads
`datetime.now()`; here the clock is the explicit first argument. -/
noncomputable def calculate_velocity (now created_at : ℤ) (comments_count : ℕ) : ℝ :=
  max 0 (1 - ((age_days now created_at : ℤ) : ℝ) / 30) * 0.7 +
    min 1.0 ((comments_count : ℕ) / 20 : ℝ) * 0.3

/-- The fields `score_post` attaches to the post (lines 194-205). -/
structure ScoredPost where
  post : Post
  demand_score : ℝ
  supply_score : ℝ
  opportunity_score : ℝ
  gold_zone : Prop
  sentiment : ℝ
  velocity : ℝ
  app_count : ℤ
  avg_rating : ℚ

/-- Source `score_post` (lines 151-207), with the hidden `datetime.now()` of
`calculate_velocity` passed explicitly.  `created_at` defaults to
`now - timedelta(days=7)` (line 163); the `competitive_data.get` defaults
(`app_count` 1, `avg_rating` 3.0) follow lines 174-176. -/
noncomputable def score_post (now : ℤ) (post : Post) : ScoredPost :=
  let post_score := post.score
  let created_at := post.created_at.getD (now - 7 * SECONDS_PER_DAY)
  let comments_count := post.comments_count
  let opportunity := post.opportunity
  let competitive_data := post.competitive_data.getD {}
  let app_count := competitive_data.app_count.getD 1
  let avg_rating := competitive_data.avg_rating.getD 3.0
  let sentiment := extract_sentiment_from_opportunity opportunity
  let velocity := calculate_velocity now created_at comments_count
  let demand_score := calculate_demand_score post_score sentiment velocity
  let supply_score := calculate_supply_score app_count ((avg_rating : ℚ) : ℝ)
  let opportunity_score := calculate_opportunity_score demand_score supply_score
  { post := post
    demand_score := demand_score
    supply_score := supply_score
    opportunity_score := opportunity_score
    gold_zone := is_gold_zone demand_score supply_score opportunity_score
    sentiment := sentiment
    velocity := velocity
    app_count := app_count
    avg_rating := avg_rating }

/-! Embedding of `fetch_with_retry` (`src/src/scrapers/reddit_scraper.py` lines 57-89;
`src/src/scrapers/appstore_scraper.py` lines 54-86 is textually identical).

One loop attempt either returns the parsed JSON (`success`), raises an
`httpx.HTTPError` (`raise_for_status` on a 4xx/5xx status, or a transport
error with no status), or gets a 2xx response whose body is not JSON, in
which case `response.json()` raises a `JSONDecodeError` — which is *not* an
`httpx.HTTPError` and escapes the `except` clause immediately. -/

inductive FetchOutcome where
  | success (body : String)
  | httpError (status : Option ℕ)
  | malformed
deriving Repr, DecidableEq

inductive FetchResult where
  | ok (body : String)
  | raised (status : Option ℕ)
  | malformedRaised
  | noneReturned
deriving Repr, DecidableEq

/-- Retry config (reddit_scraper.py line 26). -/
def MAX_RETRIES : ℕ := 3

/-- The spec's `TransientError` class: transport errors (no status), 5xx,
or 429.  Everything else among HTTP failures is its `PermanentError`. -/
def is_transient_status : Option ℕ → Bool
  | none => true
  | some s => decide (500 ≤ s) || decide (s = 429)

/-- The `for attempt in range(MAX_RETRIES)` loop, one constructor per
iteration; `fuel` is the number of loop iterations still permitted
(initially `MAX_RETRIES`), `attempt` the Python loop index.  The second
component of the result counts how many times the HTTP call was invoked.
Falling off the loop (only possible if `MAX_RETRIES = 0`) returns Python's
implicit `None` (`noneReturned`).  The backoff sleeps do not affect the
result and are not modelled. -/
def fetch_attempt_from (call : ℕ → FetchOutcome) (max_retries : ℕ) :
    ℕ → ℕ → FetchResult × ℕ
  | _, 0 => (FetchResult.noneReturned, 0)
  | attempt, fuel + 1 =>
    match call attempt with
    | FetchOutcome.success body => (FetchResult.ok body, 1)
    | FetchOutcome.malformed => (FetchResult.malformedRaised, 1)
    | FetchOutcome.httpError status =>
      if attempt = max_retries - 1 then (FetchResult.raised status, 1)
      else
        let rest := fetch_attempt_from call max_retries (attempt + 1) fuel
        (rest.1, rest.2 + 1)

def fetch_with_retry (call : ℕ → FetchOutcome) : FetchResult × ℕ :=
  fetch_attempt_from call MAX_RETRIES 0 MAX_RETRIES

/-! LLM extraction (`src/src/extractor.py`) -/

def PRIMARY_MODEL : String := "gpt-3.5-turbo"

def FALLBACK_MODEL : String := "gpt-3.5-turbo-instruct"

/-- The sentinel returned when the fallback model also fails
(extractor.py lines 108-116). -/
def sentinel_opportunity : Opportunity :=
  { title := "提取失败"
    pain_summary := "无法从帖子中提取产品机会信息"
    unmet_need := false
    solo_doable := false
    monetizable := false
    tags := ["extraction_failed"] }

def lbrace : Char := Char.ofNat 123

def rbrace : Char := Char.ofNat 125

/-- Python `str.find(c)` (index of first occurrence, `None` for `-1`). -/
def find_char (c : Char) (cs : List Char) : Option ℕ :=
  cs.findIdx? (fun a => a == c)

/-- Python `str.rfind(c)` (index of last occurrence). -/
def rfind_char (c : Char) (cs : List Char) : Option ℕ :=
  match cs.reverse.findIdx? (fun a => a == c) with
  | none => none
  | some i => some (cs.length - 1 - i)

/-- The outcome of one chat-completion call: delivered content string, or
any exception out of the OpenAI client. -/
inductive LLMOutcome where
  | ok (content : String)
  | failed
deriving Repr, DecidableEq

/-- The JSON-salvage parse of extractor.py lines 85-97: direct `json.loads`
of the stripped content, then `json.loads` of the first-brace..last-brace
slice.  `parse` is the `json.loads` oracle; `none` covers every raising
path (both `JSONDecodeError`s and the explicit `ValueError`), all of which
land in the outer `except` of `extract_opportunity`. -/
def parse_llm_result (parse : String → Option Opportunity) (result : String) :
    Option Opportunity :=
  match parse result with
  | some o => some o
  | none =>
    let cs := result.toList
    match find_char lbrace cs, rfind_char rbrace cs with
    | some json_start, some json_end =>
        parse (String.mk ((cs.drop json_start).take (json_end + 1 - json_start)))
    | _, _ => none

/-- Source `extract_opportunity` (extractor.py lines 58-116): try the given model;
on any failure, a primary-model extractor recurses once with the fallback
model, and a non-primary extractor returns the sentinel.  The second
component records the models called, in order (instrumentation for the
retry-count claims; the source's call to the OpenAI client is `llm`,
`json.loads` is `parse`). -/
def extract_opportunity (llm : String → LLMOutcome) (parse : String → Option Opportunity)
    (model : String) : Opportunity × List String :=
  let attempt : Option Opportunity :=
    match llm model with
    | LLMOutcome.ok content => parse_llm_result parse content.trim
    | LLMOutcome.failed => none
  match attempt with
  | some o => (o, [model])
  | none =>
    if h : model = PRIMARY_MODEL then
      let backup := extract_opportunity llm parse FALLBACK_MODEL
      (backup.1, model :: backup.2)
    else
      (sentinel_opportunity, [model])
termination_by (if model = PRIMARY_MODEL then 1 else 0)
decreasing_by
  have hne : FALLBACK_MODEL ≠ PRIMARY_MODEL := by decide
  simp [h, hne]

/-! Competitive enrichment (`src/src/competitive.py`) -/

/-- A store item as produced by the store scrapers and consumed by
`search_competitors`: the three keys it reads. -/
structure Competitor where
  id : String := ""
  name : String := ""
  rating : ℚ := 0
deriving Repr, DecidableEq

/-- The dict built by `search_competitors` (competitive.py lines 200-255). -/
structure SearchResult where
  app_count : ℤ
  avg_rating : ℚ
  competitors : List Competitor
deriving Repr, DecidableEq

def list_starts_with : List Char → List Char → Bool
  | [], _ => true
  | _ :: _, [] => false
  | a :: as, b :: bs => a == b && list_starts_with as bs

/-- Python's substring test `needle in haystack`. -/
def contains_chars (needle : List Char) : List Char → Bool
  | [] => needle.isEmpty
  | b :: bs => list_starts_with needle (b :: bs) || contains_chars needle bs

/-- The id-dedup loop of `search_competitors` (lines 234-242): keep a
competitor iff its id is non-empty (`if comp_id and ...`) and unseen. -/
def dedup_by_id : List Competitor → List String → List Competitor
  | [], _ => []
  | comp :: comps, unique_ids =>
    if comp.id ≠ "" ∧ comp.id ∉ unique_ids then
      comp :: dedup_by_id comps (comp.id :: unique_ids)
    else
      dedup_by_id comps unique_ids

/-- Source `search_competitors` (lines 189-255) with `platform="all"`.
The App Store branch (lines 209-217) calls `scraper.search_apps`, a method
`AppStoreScraper` does not have: it raises `AttributeError` on the first
keyword, before any HTTP request is made, and the `except Exception` at
line 216 swallows it — so that branch issues no external query and
contributes no competitors (`app_results = []` below).  The Chrome branch
issues exactly one external query, the `fetch_top_extensions` listing
fetch (its result is the `top_extensions` oracle, line 224), then filters
it by keyword-in-name (lines 227-230).  The second component counts the
external store queries issued — always 1, the listing fetch: there is no
cache anywhere on this path. -/
def search_competitors (top_extensions : List Competitor) (keywords : List String) :
    SearchResult × ℕ :=
  let app_results : List Competitor := []
  let chrome_results := top_extensions.filter
    (fun e => keywords.any (fun k => contains_chars k.toLower.toList e.name.toLower.toList))
  let unique_competitors := dedup_by_id (app_results ++ chrome_results) []
  let avg_rating : ℚ :=
    if unique_competitors ≠ [] then
      round1q ((unique_competitors.map Competitor.rating).sum / unique_competitors.length)
    else 0
  let sorted := unique_competitors.mergeSort (fun a b => decide (b.rating ≤ a.rating))
  ({ app_count := (unique_competitors.length : ℤ)
     avg_rating := avg_rating
     competitors := sorted.take 10 },
    1)

/-- Python `str.split()` with no argument (title.split(), competitive.py
line 274): split on whitespace runs, dropping empty pieces.  `acc` holds
the characters of the current word, reversed. -/
def split_words : List Char → List Char → List String
  | [], acc => if acc.isEmpty then [] else [String.mk acc.reverse]
  | c :: cs, acc =>
    if c == ' ' then
      if acc.isEmpty then split_words cs []
      else String.mk acc.reverse :: split_words cs []
    else split_words cs (c :: acc)

/-- The `seen`-set dedup used for keywords (competitive.py line 283 uses
`list(set(keywords))`, whose order Python leaves unspecified; this keeps
first occurrences in order — same members and same cardinality). -/
def dedup_strings : List String → List String → List String
  | [], _ => []
  | s :: ss, seen =>
    if s ∈ seen then dedup_strings ss seen
    else s :: dedup_strings ss (s :: seen)

/-- Keyword derivation of `enrich_post_with_competitive_data` (lines
267-287): title words longer than 3 characters, plus opportunity tags,
deduplicated, at most 5, defaulting to `["app", "tool"]` when empty. -/
def derive_keywords (post : Post) : List String :=
  let words := (split_words post.title.toList []).filter (fun w => 3 < w.length)
  let keywords := (dedup_strings (words ++ post.opportunity.tags) []).take 5
  if keywords = [] then ["app", "tool"] else keywords

/-- Source `enrich_post_with_competitive_data` (lines 257-295); the second
component counts the external store queries issued by the underlying
`search_competitors` call (always 1, see `search_competitors`). -/
def enrich_post_with_competitive_data (top_extensions : List Competitor)
    (post : Post) : Post × ℕ :=
  let keywords := derive_keywords post
  let result := search_competitors top_extensions keywords
  let cd : CompetitiveData :=
    { app_count := some result.1.app_count, avg_rating := some result.1.avg_rating }
  ({ post with competitive_data := some cd }, result.2)

/-! The file cache of the rating-trend lookup (`competitive.py` lines
55-136).  A cache is a list of files: `(filename, cached_at, payload)`,
timestamps in epoch seconds. -/

def cache_read {α : Type} (cache : List (String × ℤ × α)) (key : String) :
    Option (ℤ × α) :=
  (cache.find? (fun e => e.1 == key)).map (fun e => e.2)

/-- Writing a cache file overwrites any previous file of the same name. -/
def cache_write {α : Type} (cache : List (String × ℤ × α)) (key : String)
    (now : ℤ) (data : α) : List (String × ℤ × α) :=
  (key, now, data) :: cache.filter (fun e => !(e.1 == key))

/-- The fetch-and-cache branch (lines 84-136): on success the built result
is cached with `cached_at = now` and returned; on any scraper exception the
initialized default result is returned and nothing is cached. -/
def fetch_and_cache {α : Type} (fetch : Except Unit α) (default_result : α)
    (cache : List (String × ℤ × α)) (now : ℤ) (cache_file : String) :
    α × List (String × ℤ × α) × Bool :=
  match fetch with
  | Except.ok data => (data, cache_write cache cache_file now data, true)
  | Except.error _ => (default_result, cache, true)

/-- Source `get_app_store_rating_trend` (lines 55-136): cache mechanics exact
(file name `appstore_<id>_trend.json`, hit iff
`cached_at > now - timedelta(days=1)`, lines 66-73), with the scraped
payload construction abstracted into the `fetch` oracle.  Third component
of the result: whether an external fetch was issued. -/
def get_app_store_rating_trend {α : Type} (fetch : Except Unit α) (default_result : α)
    (cache : List (String × ℤ × α)) (now : ℤ) (app_id : String) :
    α × List (String × ℤ × α) × Bool :=
  match cache_read cache ("appstore_" ++ app_id ++ "_trend.json") with
  | some (cached_at, data) =>
    if cached_at > now - SECONDS_PER_DAY then (data, cache, false)
    else fetch_and_cache fetch default_result cache now ("appstore_" ++ app_id ++ "_trend.json")
  | none => fetch_and_cache fetch default_result cache now ("appstore_" ++ app_id ++ "_trend.json")

/-! Title deduplication (`analysis.py`, `search_ideas` lines 140-146) -/

/-- The record built for each fetched post (analysis.py lines 130-137);
`created` is an epoch-seconds timestamp. -/
structure IdeaRecord where
  subreddit : String := ""
  title : String := ""
  score : ℤ := 0
  url : String := ""
  created : ℤ := 0
deriving Repr, DecidableEq

/-- The dedup loop (lines 140-146): a `seen` set of titles, keep a record
iff its title is unseen.  The Python loop appends to `deduped`; this
cons-building recursion produces the same list. -/
def dedup_by_title : List IdeaRecord → List String → List IdeaRecord
  | [], _ => []
  | r :: rs, seen =>
    if r.title ∈ seen then dedup_by_title rs seen
    else r :: dedup_by_title rs (r.title :: seen)

/-- Written from the claim's words, for comparison with `dedup_by_title`:
retain each record and drop every later record carrying the same title. -/
def dedup_spec_keep_first : List IdeaRecord → List IdeaRecord
  | [] => []
  | r :: rs => r :: dedup_spec_keep_first (rs.filter (fun q => q.title ≠ r.title))
termination_by l => l.length
decreasing_by
  simp
  exact Nat.lt_succ_of_le (List.length_filter_le _ _)

/-! Concrete inputs used by counterexamples and witnesses -/

/-- A post that is gold-zone when scored the day it was created and not
gold-zone when scored 30 days later: `log10(10^6) = 6` keeps the demand
arithmetic rational. -/
def p_gold : Post :=
  { title := ""
    score := 999999
    created_at := some 0
    comments_count := 0
    opportunity := {}
    competitive_data := some { app_count := some 0, avg_rating := some 0 } }

def p_clock : Post :=
  { score := 10, created_at := some 0, comments_count := 4 }

/-- Thirty days of seconds, the stale clock reading of the C4
counterexample. -/
def t_stale : ℤ := 30 * SECONDS_PER_DAY

/-- A post whose `competitive_data` is present but lacking the `avg_rating` key. -/
def p_missing_rating : Post :=
  { competitive_data := some { app_count := some 0, avg_rating := none } }

/-- No `competitive_data` at all (enrichment skipped). -/
def p_no_competitive : Post := {}

/-- A post whose derived keyword set is the single keyword `"todo"`. -/
def p_todo : Post := { title := "todo" }

end Iceberg

namespace Iceberg

/-! Rounding helpers -/

theorem round1_eq_div (x : ℝ) (n : ℤ) (h : x * 10 = (n : ℝ)) :
    round1 x = (n : ℝ) / 10 := by
  unfold round1
  rw [h, round_intCast]

theorem round1_eq_of_bounds (x : ℝ) (n : ℤ)
    (h1 : (n : ℝ) ≤ x * 10 + 1 / 2) (h2 : x * 10 + 1 / 2 < (n : ℝ) + 1) :
    round1 x = (n : ℝ) / 10 := by
  unfold round1
  rw [round_eq]
  have hfl : (⌊x * 10 + 1 / 2⌋ : ℤ) = n := by
    rw [Int.floor_eq_iff]
    exact ⟨h1, by exact_mod_cast h2⟩
  rw [hfl]

/-- C1: for every scored post, the `gold_zone` flag attached by
`score_post` holds iff `opportunity_score ≥ 70`, `demand_score ≥ 50` and
`supply_score ≤ 30`. -/
theorem C1_gold_zone_iff (now : ℤ) (post : Post) :
    (score_post now post).gold_zone ↔
      (score_post now post).opportunity_score ≥ 70 ∧
      (score_post now post).demand_score ≥ 50 ∧
      (score_post now post).supply_score ≤ 30 :=
  Iff.rfl

/-- C2: the demand score of every scored post equals
`log10(post_score+1)*10 + sentiment*10 + velocity*20` rounded to one
decimal, with sentiment `0.5 (+0.3 unmet_need) (+0.2 monetizable)` capped
at 1, and velocity `0.7*max(0, 1-age_days/30) + 0.3*min(1, comments/20)`. -/
theorem C2_demand_formula (now : ℤ) (post : Post) :
    (score_post now post).demand_score =
      round1 (Real.logb 10 ((post.score : ℝ) + 1) * 10
        + min 1 ((0.5 : ℝ) + (if post.opportunity.unmet_need then 0.3 else 0)
            + (if post.opportunity.monetizable then 0.2 else 0)) * 10
        + ((0.7 : ℝ) * max 0
              (1 - ((age_days now (post.created_at.getD (now - 7 * SECONDS_PER_DAY)) : ℤ) : ℝ) / 30)
            + 0.3 * min 1 ((post.comments_count : ℕ) / 20 : ℝ)) * 20) := by
  simp only [score_post, calculate_demand_score, extract_sentiment_from_opportunity,
    calculate_velocity]
  congr 2
  · norm_num
  · ring_nf

/-! The end-to-end example (claim C3)

The spec works the example `post_score=150, sentiment=0.8, velocity=0.91`
with `log10(151)*10 ≈ 20.79`; in fact `log10(151) ≈ 2.179`, so the term is
`≈ 21.79` and the engine returns `48.0`, not `≈ 46.99`. -/

theorem logb_151_lower : (87 / 40 : ℝ) ≤ Real.logb 10 151 := by
  rw [Real.le_logb_iff_rpow_le (by norm_num) (by norm_num)]
  have key : ((10 : ℝ) ^ ((87 : ℝ) / 40)) ^ (40 : ℕ) ≤ (151 : ℝ) ^ (40 : ℕ) := by
    rw [← Real.rpow_natCast ((10 : ℝ) ^ ((87 : ℝ) / 40)) 40,
      ← Real.rpow_mul (by norm_num : (0 : ℝ) ≤ 10)]
    have h87 : ((87 : ℝ) / 40) * (40 : ℕ) = ((87 : ℕ) : ℝ) := by norm_num
    rw [h87, Real.rpow_natCast]
    norm_num
  exact le_of_pow_le_pow_left₀ (by norm_num) (by positivity) key

theorem logb_151_upper : Real.logb 10 151 < (109 / 50 : ℝ) := by
  rw [Real.logb_lt_iff_lt_rpow (by norm_num) (by norm_num)]
  have key : (151 : ℝ) ^ (50 : ℕ) < ((10 : ℝ) ^ ((109 : ℝ) / 50)) ^ (50 : ℕ) := by
    rw [← Real.rpow_natCast ((10 : ℝ) ^ ((109 : ℝ) / 50)) 50,
      ← Real.rpow_mul (by norm_num : (0 : ℝ) ≤ 10)]
    have h109 : ((109 : ℝ) / 50) * (50 : ℕ) = ((109 : ℕ) : ℝ) := by norm_num
    rw [h109, Real.rpow_natCast]
    norm_num
  exact lt_of_pow_lt_pow_left₀ 50 (by positivity) key

theorem demand_at_spec_example : calculate_demand_score 150 0.8 0.91 = 48 := by
  have h1 := logb_151_lower
  have h2 := logb_151_upper
  unfold calculate_demand_score
  have h151 : ((150 : ℤ) : ℝ) + 1 = 151 := by norm_num
  rw [h151, round1_eq_of_bounds _ 480 (by norm_num; nlinarith) (by norm_num; nlinarith)]
  norm_num

theorem supply_at_spec_example : calculate_supply_score 3 3.2 = 21.4 := by
  unfold calculate_supply_score
  rw [round1_eq_div _ 214 (by norm_num)]
  norm_num

/-- C3 counterexample: at the spec's own example input the engine returns
`demand_score = 48.0` and `opportunity_score = 26.6`, not `≈ 46.99` and
`≈ 25.6` (the spec slipped a decade: `log10(151) ≈ 2.179`, not `2.079`). -/
theorem C3_counterexample :
    calculate_demand_score 150 0.8 0.91 = 48 ∧
    calculate_opportunity_score (calculate_demand_score 150 0.8 0.91)
      (calculate_supply_score 3 3.2) = 26.6 ∧
    ¬ |(48 : ℝ) - 46.99| < 1 / 2 ∧ ¬ |(26.6 : ℝ) - 25.6| < 1 / 2 := by
  refine ⟨demand_at_spec_example, ?_, by rw [abs_of_pos] <;> norm_num,
    by rw [abs_of_pos] <;> norm_num⟩
  rw [demand_at_spec_example, supply_at_spec_example]
  unfold calculate_opportunity_score
  rw [round1_eq_div _ 266 (by norm_num)]
  norm_num

/-- C3 amended: for `post_score=150, sentiment=0.8, velocity=0.91,
app_count=3, avg_rating=3.2` the engine produces `demand_score = 48.0`
(`log10(151)*10 ≈ 21.79`), `supply_score = 21.4`,
`opportunity_score = 26.6`, and `gold_zone = false`. -/
theorem C3_amended :
    calculate_demand_score 150 0.8 0.91 = 48 ∧
    calculate_supply_score 3 3.2 = 21.4 ∧
    calculate_opportunity_score 48 21.4 = 26.6 ∧
    ¬ is_gold_zone 48 21.4 26.6 := by
  refine ⟨demand_at_spec_example, supply_at_spec_example, ?_, ?_⟩
  · unfold calculate_opportunity_score
    rw [round1_eq_div _ 266 (by norm_num)]
    norm_num
  · unfold is_gold_zone gold_zone_min_opportunity
    push_neg
    intro h
    norm_num at h

/-! Clock dependence of `score_post` (claim C4) -/

theorem logb_one_million : Real.logb 10 1000000 = 6 := by
  have h : (1000000 : ℝ) = 10 ^ (6 : ℕ) := by norm_num
  rw [h, Real.logb_pow, Real.logb_self_eq_one (by norm_num)]
  norm_num

theorem sentiment_default : extract_sentiment_from_opportunity {} = 0.5 := by
  unfold extract_sentiment_from_opportunity
  norm_num [min_def]

theorem velocity_gold_fresh : calculate_velocity 0 0 0 = 0.7 := by
  unfold calculate_velocity
  have h : age_days 0 0 = 0 := by decide
  rw [h]
  norm_num [max_def, min_def]

theorem velocity_gold_stale : calculate_velocity t_stale 0 0 = 0 := by
  unfold calculate_velocity
  have h : age_days t_stale 0 = 30 := by decide
  rw [h]
  norm_num [max_def, min_def]

theorem demand_gold_fresh : calculate_demand_score 999999 0.5 0.7 = 79 := by
  unfold calculate_demand_score
  have h : ((999999 : ℤ) : ℝ) + 1 = 1000000 := by norm_num
  rw [h, logb_one_million, round1_eq_div _ 790 (by norm_num)]
  norm_num

theorem demand_gold_stale : calculate_demand_score 999999 0.5 0 = 65 := by
  unfold calculate_demand_score
  have h : ((999999 : ℤ) : ℝ) + 1 = 1000000 := by norm_num
  rw [h, logb_one_million, round1_eq_div _ 650 (by norm_num)]
  norm_num

theorem supply_gold : calculate_supply_score 0 0 = 0 := by
  unfold calculate_supply_score
  rw [round1_eq_div _ 0 (by norm_num)]
  norm_num

/-- C4 counterexample: `score_post` is not a function of the post alone —
`calculate_velocity` reads `datetime.now()`.  Scoring `p_gold` on its
creation day yields the gold zone; scoring the identical post 30 days
later does not. -/
theorem C4_counterexample :
    (score_post 0 p_gold).gold_zone ∧ ¬ (score_post t_stale p_gold).gold_zone := by
  constructor
  · simp only [score_post, p_gold, Option.getD_some, Rat.cast_zero]
    rw [sentiment_default, velocity_gold_fresh, demand_gold_fresh, supply_gold]
    have hopp : calculate_opportunity_score 79 0 = 79 := by
      unfold calculate_opportunity_score
      rw [round1_eq_div _ 790 (by norm_num)]
      norm_num
    rw [hopp]
    unfold is_gold_zone gold_zone_min_opportunity gold_zone_min_demand gold_zone_max_supply
    norm_num
  · simp only [score_post, p_gold, Option.getD_some, Rat.cast_zero]
    rw [sentiment_default, velocity_gold_stale, demand_gold_stale, supply_gold]
    have hopp : calculate_opportunity_score 65 0 = 65 := by
      unfold calculate_opportunity_score
      rw [round1_eq_div _ 650 (by norm_num)]
      norm_num
    rw [hopp]
    unfold is_gold_zone gold_zone_min_opportunity
    intro h
    have := h.1
    norm_num at this

/-- C4 amended: `score_post` is a deterministic pure function of the post
together with the clock reading (passed here explicitly); two scorings
whose clock readings give the post the same whole-day age produce
identical output, including the gold-zone flag.  It is not a function of
the post alone (see the counterexample). -/
theorem C4_amended (post : Post) (t1 t2 : ℤ)
    (h : age_days t1 (post.created_at.getD (t1 - 7 * SECONDS_PER_DAY)) =
      age_days t2 (post.created_at.getD (t2 - 7 * SECONDS_PER_DAY))) :
    score_post t1 post = score_post t2 post := by
  simp only [score_post, calculate_velocity, h]

theorem C4_witness :
    age_days 43200 (p_clock.created_at.getD (43200 - 7 * SECONDS_PER_DAY)) =
      age_days 64800 (p_clock.created_at.getD (64800 - 7 * SECONDS_PER_DAY)) ∧
    score_post 43200 p_clock = score_post 64800 p_clock :=
  ⟨by decide, C4_amended p_clock 43200 64800 (by decide)⟩

/-! Supply-score defaults (claim C10) -/

/-- C10 counterexample: a post whose `competitive_data` lacks only the
`avg_rating` key (with `app_count` present as 0) gets `supply_score`
`round1(0*5 + 3.0*2) = 6.0`, not `11.0` — each missing key is defaulted
independently. -/
theorem C10_counterexample :
    (p_missing_rating.competitive_data.getD {}).avg_rating = none ∧
    (score_post 0 p_missing_rating).supply_score = 6 ∧ (6 : ℝ) ≠ 11 := by
  refine ⟨rfl, ?_, by norm_num⟩
  simp only [score_post, p_missing_rating, Option.getD_some, Option.getD_none]
  unfold calculate_supply_score
  rw [round1_eq_div _ 60 (by push_cast; norm_num)]
  norm_num

/-- C10 amended: a post whose `competitive_data` is absent, or present but
lacking both the `app_count` and `avg_rating` keys, is scored with the
defaults `app_count = 1` and `avg_rating = 3.0`, so its supply score is
`round1(1*5 + 3.0*2) = 11.0`. -/
theorem C10_amended (now : ℤ) (post : Post)
    (h : post.competitive_data = none ∨
      ∃ cd, post.competitive_data = some cd ∧ cd.app_count = none ∧ cd.avg_rating = none) :
    (score_post now post).supply_score = 11 := by
  have happ : (post.competitive_data.getD {}).app_count = none ∧
      (post.competitive_data.getD {}).avg_rating = none := by
    rcases h with h | ⟨cd, hcd, h1, h2⟩
    · rw [h]; exact ⟨rfl, rfl⟩
    · rw [hcd]; exact ⟨h1, h2⟩
  simp only [score_post, happ.1, happ.2, Option.getD_none]
  unfold calculate_supply_score
  rw [round1_eq_div _ 110 (by push_cast; norm_num)]
  norm_num

theorem C10_witness :
    p_no_competitive.competitive_data = none ∧
    (score_post 0 p_no_competitive).supply_score = 11 :=
  ⟨rfl, C10_amended 0 p_no_competitive (Or.inl rfl)⟩

/-! Retry behaviour (claims C5 and C6) -/

/-- C5: a fetch whose HTTP call raises a transient error on every attempt
performs exactly `MAX_RETRIES = 3` attempts and then raises the error of
the last attempt to the caller. -/
theorem C5_retry_bound (call : ℕ → FetchOutcome) (errs : ℕ → Option ℕ)
    (hcall : ∀ n, call n = FetchOutcome.httpError (errs n))
    (htrans : ∀ n, is_transient_status (errs n) = true) :
    fetch_with_retry call = (FetchResult.raised (errs 2), 3) := by
  simp [fetch_with_retry, MAX_RETRIES, fetch_attempt_from, hcall 0, hcall 1, hcall 2]

theorem C5_witness :
    fetch_with_retry (fun _ => FetchOutcome.httpError (some 503)) =
      (FetchResult.raised (some 503), 3) :=
  C5_retry_bound (fun _ => FetchOutcome.httpError (some 503)) (fun _ => some 503)
    (fun _ => rfl) (fun _ => rfl)

/-- C6 counterexample: a call that always fails with HTTP 404 — a 4xx
other than 429, the spec's `PermanentError` — is retried all the same:
`except httpx.HTTPError` catches status errors of every class, so 3
attempts are made, not 1. -/
theorem C6_counterexample :
    fetch_with_retry (fun _ => FetchOutcome.httpError (some 404)) =
      (FetchResult.raised (some 404), 3) ∧
    is_transient_status (some 404) = false ∧ (3 : ℕ) ≠ 1 := by
  exact ⟨by decide, by decide, by decide⟩

/-- C6 amended: only a malformed (non-JSON) response body is surfaced after
the first attempt with no retry (`response.json()` raises outside the
`except httpx.HTTPError` clause); an HTTP status failure — including a 4xx
other than 429 — is retried like any other `httpx.HTTPError`, up to 3
attempts, with the last error raised. -/
theorem C6_amended (call : ℕ → FetchOutcome) :
    (call 0 = FetchOutcome.malformed →
      fetch_with_retry call = (FetchResult.malformedRaised, 1)) ∧
    (∀ status, (∀ n, call n = FetchOutcome.httpError status) →
      fetch_with_retry call = (FetchResult.raised status, 3)) := by
  constructor
  · intro h
    simp [fetch_with_retry, MAX_RETRIES, fetch_attempt_from, h]
  · intro status h
    simp [fetch_with_retry, MAX_RETRIES, fetch_attempt_from, h 0, h 1, h 2]

theorem C6_witness :
    fetch_with_retry (fun _ => FetchOutcome.malformed) =
      (FetchResult.malformedRaised, 1) :=
  (C6_amended (fun _ => FetchOutcome.malformed)).1 rfl

/-! Extraction fallback (claim C7) -/

/-- C7: when no language-model response contains valid JSON anywhere (the
`json.loads` oracle accepts no string at all), extraction with the primary
model retries exactly once, against the designated fallback model, and
returns the sentinel opportunity — all booleans false and tagged
`extraction_failed` — rather than raising: `extract_opportunity` is a
total function by construction. -/
theorem C7_extraction_fallback (llm : String → LLMOutcome)
    (parse : String → Option Opportunity) (hp : ∀ s, parse s = none) :
    extract_opportunity llm parse PRIMARY_MODEL =
      (sentinel_opportunity, [PRIMARY_MODEL, FALLBACK_MODEL]) ∧
    sentinel_opportunity.unmet_need = false ∧
    sentinel_opportunity.solo_doable = false ∧
    sentinel_opportunity.monetizable = false ∧
    "extraction_failed" ∈ sentinel_opportunity.tags := by
  refine ⟨?_, rfl, rfl, rfl, by simp [sentinel_opportunity]⟩
  have hparse : ∀ r, parse_llm_result parse r = none := by
    intro r
    unfold parse_llm_result
    rw [hp r]
    simp only [hp]
    split <;> rfl
  have step : ∀ model, (match llm model with
      | LLMOutcome.ok content => parse_llm_result parse content.trim
      | LLMOutcome.failed => none) = (none : Option Opportunity) := by
    intro model
    cases llm model
    · exact hparse _
    · rfl
  have hne : ¬ (FALLBACK_MODEL = PRIMARY_MODEL) := by decide
  rw [extract_opportunity, step, extract_opportunity, step]
  simp [hne]

theorem C7_witness :
    extract_opportunity (fun _ => LLMOutcome.failed) (fun _ => none) PRIMARY_MODEL =
      (sentinel_opportunity, [PRIMARY_MODEL, FALLBACK_MODEL]) :=
  (C7_extraction_fallback (fun _ => LLMOutcome.failed) (fun _ => none) (fun _ => rfl)).1

/-! Competitive caching (claim C8) -/

/-- C8 counterexample: enrichment competitor searches are not served from
any cache — `search_competitors` contains no cache read or write at all.
Enriching `p_todo` issues 1 external store query (the extension-store
listing fetch; the app-store branch dies on the missing `search_apps`
before any request), and enriching its own output — an identical derived
keyword set, at any later time — again issues 1 external query, not 0. -/
theorem C8_counterexample :
    (enrich_post_with_competitive_data [] p_todo).2 = 1 ∧
    (enrich_post_with_competitive_data []
      (enrich_post_with_competitive_data [] p_todo).1).2 = 1 ∧
    (1 : ℕ) ≠ 0 := by
  refine ⟨?_, ?_, by decide⟩ <;> rfl

/-- C8 amended: every enrichment call issues exactly one external store
query — the extension-store listing fetch; the app-store keyword search
always fails on the missing `search_apps` method before any request and
is swallowed — and never a cache hit, because the competitor-search path
has no cache.  The 24-hour file cache exists for the rating-trend lookup
instead: a lookup whose cache file was written strictly less than 24 hours
ago is served from the cache with no external fetch, and one whose cache
file is 24 hours old or older issues an external fetch again. -/
theorem C8_amended {α : Type} (fetch : Except Unit α) (d : α)
    (cache : List (String × ℤ × α)) (now t : ℤ) (app_id : String) (data : α)
    (top_extensions : List Competitor) (post : Post) :
    (enrich_post_with_competitive_data top_extensions post).2 = 1 ∧
    0 < (enrich_post_with_competitive_data top_extensions post).2 ∧
    (cache_read cache ("appstore_" ++ app_id ++ "_trend.json") = some (t, data) →
      (t > now - SECONDS_PER_DAY →
        get_app_store_rating_trend fetch d cache now app_id = (data, cache, false)) ∧
      (¬ t > now - SECONDS_PER_DAY →
        (get_app_store_rating_trend fetch d cache now app_id).2.2 = true)) := by
  refine ⟨rfl, Nat.one_pos, ?_⟩
  intro hread
  unfold get_app_store_rating_trend
  rw [hread]
  dsimp only
  constructor
  · intro ht
    rw [if_pos ht]
  · intro ht
    rw [if_neg ht]
    cases fetch <;> rfl

theorem C8_witness :
    cache_read [("appstore_42_trend.json", (0 : ℤ), (7 : ℕ))] "appstore_42_trend.json" =
      some (0, 7) ∧
    (0 : ℤ) > 43200 - SECONDS_PER_DAY ∧
    get_app_store_rating_trend (Except.ok 9) 0
      [("appstore_42_trend.json", (0 : ℤ), (7 : ℕ))] 43200 "42" =
      (7, [("appstore_42_trend.json", (0 : ℤ), (7 : ℕ))], false) :=
  ⟨rfl, by decide,
    ((C8_amended (Except.ok 9) 0 [("appstore_42_trend.json", (0 : ℤ), (7 : ℕ))] 43200 0
      "42" 7 [] {}).2.2 rfl).1 (by decide)⟩

/-! Title deduplication (claim C9) -/

theorem dedup_by_title_general (rs : List IdeaRecord) :
    ∀ seen, dedup_by_title rs seen =
      dedup_spec_keep_first (rs.filter (fun q => q.title ∉ seen)) := by
  induction rs with
  | nil => intro seen; simp [dedup_by_title, dedup_spec_keep_first]
  | cons r rs ih =>
    intro seen
    by_cases h : r.title ∈ seen
    · rw [List.filter_cons_of_neg (by simp [h])]
      simp only [dedup_by_title, if_pos h]
      exact ih seen
    · rw [List.filter_cons_of_pos (by simp [h])]
      simp only [dedup_by_title, if_neg h]
      rw [dedup_spec_keep_first, ih (r.title :: seen)]
      congr 1
      rw [List.filter_filter]
      apply congrArg
      apply List.filter_congr
      intro q _
      by_cases h1 : q.title = r.title <;> by_cases h2 : q.title ∈ seen <;>
        simp [h1, h2]

theorem dedup_by_title_sublist (rs : List IdeaRecord) :
    ∀ seen, (dedup_by_title rs seen).Sublist rs := by
  induction rs with
  | nil => intro _; exact List.Sublist.refl []
  | cons r rs ih =>
    intro seen
    by_cases h : r.title ∈ seen
    · simp only [dedup_by_title, if_pos h]
      exact (ih seen).cons r
    · simp only [dedup_by_title, if_neg h]
      exact (ih (r.title :: seen)).cons₂ r

/-- C9: the dedup of `search_ideas` retains, of any group of records with
the same title (whatever their other fields), exactly the first in input
order — it coincides with the keep-first recursion written from the
claim — and the retained records keep their relative input order (the
output is a sublist of the input). -/
theorem C9_dedup_keeps_first (results : List IdeaRecord) :
    dedup_by_title results [] = dedup_spec_keep_first results ∧
    (dedup_by_title results []).Sublist results := by
  refine ⟨?_, dedup_by_title_sublist results []⟩
  rw [dedup_by_title_general results []]
  congr 1
  simp

end Iceberg
